import Mathlib

/-!
Verification development for the MrBeamLedStrips animation state engine
(`mrbeam_ledstrips/state_animations.py` and `mrbeam_ledstrips/server.py`).

The engine state (current state string, bounded history, ignore latch, frame
counter, settings) is embedded as the structure `LEDState`; the operations
`change_state`, `rollback`, `handle` (command dispatch), the render loop and
the settings path are embedded as pure functions over it.  Python exceptions
are modelled with `Except PyErr`.  Pixel-buffer writes (`_set_color`,
`_update`) touch no engine-state field and are modelled separately through
the color math (`Color`, `dim_color`, `_breath_factor`, ...), which operates
on exact rationals (Python floats are modelled as `ℚ`; all arithmetic the
claims evaluate is exact in floating point as well).
-/

namespace MrBeamLedStrips

/-- Python exceptions that the modelled code can raise. -/
inductive PyErr where
  | valueError (msg : String)
  | typeError (msg : String)
  | nameError (msg : String)
  | indexError
deriving DecidableEq, Repr

/-- Split a character list at every occurrence of `sep` (a computable model
of Python `str.split(sep)` for a one-character separator, which always
yields at least one piece). -/
def splitOnChar (sep : Char) : List Char → List (List Char)
  | [] => [[]]
  | c :: rest =>
    let r := splitOnChar sep rest
    if c = sep then [] :: r
    else
      match r with
      | [] => [[c]]
      | s :: tail => (c :: s) :: tail

/-- Strip leading and trailing whitespace (a computable model of the
whitespace stripping `int()`/`float()` perform on strings). -/
def trimChars (cs : List Char) : List Char :=
  (((cs.dropWhile Char.isWhitespace).reverse).dropWhile Char.isWhitespace).reverse

/-- Value of a decimal digit string (none when empty or non-digit). -/
def decDigits? : List Char → Option Nat
  | [] => none
  | cs =>
    if cs.all Char.isDigit then
      some (cs.foldl (fun acc c => 10 * acc + (c.toNat - '0'.toNat)) 0)
    else none

/-- Model of Python `int(str)`: optional surrounding whitespace, optional
sign, decimal digits.  (Underscore separators, other bases and non-decimal
forms are never fed to `int` by this codebase.) -/
def pyIntCore (s : String) : Option Int :=
  match trimChars s.data with
  | '-' :: rest => (decDigits? rest).map (fun n => -(n : Int))
  | '+' :: rest => (decDigits? rest).map (fun n => (n : Int))
  | cs => (decDigits? cs).map (fun n => (n : Int))

/-- Python `int(str)`, raising `ValueError` on failure. -/
def pyInt (s : String) : Except PyErr Int :=
  match pyIntCore s with
  | some n => Except.ok n
  | none => Except.error (PyErr.valueError ("invalid literal for int with base 10: " ++ s))

/-- Whether `int(s)` succeeds. -/
def pyIntOk (s : String) : Bool := (pyIntCore s).isSome

/-- Model of Python `float(str)` restricted to plain decimal literals
(optional sign, digits, optional fractional part) — the only shapes this
codebase feeds it. -/
def pyFloatCore (s : String) : Option ℚ :=
  let signBody : ℚ × List Char :=
    match trimChars s.data with
    | '-' :: rest => (-1, rest)
    | '+' :: rest => (1, rest)
    | cs => (1, cs)
  let sign := signBody.1
  match splitOnChar '.' signBody.2 with
  | [ip] => (decDigits? ip).map (fun n => sign * n)
  | [ip, fp] =>
    if ip.isEmpty && fp.isEmpty then none
    else do
      let ipn ← if ip.isEmpty then some 0 else decDigits? ip
      let fpn ← if fp.isEmpty then some 0 else decDigits? fp
      some (sign * ((ipn : ℚ) + (fpn : ℚ) / (10 : ℚ) ^ fp.length))
  | _ => none

/-- Python `int()` applied to a real value truncates toward zero; on an
exact rational that is `num tdiv den`. -/
def pyTrunc (q : ℚ) : Int := q.num.tdiv (q.den : Int)

/-- Module-level `parse_int(value)` from `state_animations.py`:
`int(float(value))`, re-raising `ValueError` with its own message. -/
def parse_int (value : String) : Except PyErr Int :=
  match pyFloatCore value with
  | some q => Except.ok (pyTrunc q)
  | none => Except.error (PyErr.valueError ("Cannot convert value " ++ value ++ " to int."))

/-- Python `round()` (banker's rounding, half to even). -/
def pyRound (q : ℚ) : Int :=
  let fl := ⌊q⌋
  if q - fl < 1/2 then fl
  else if 1/2 < q - fl then fl + 1
  else if fl % 2 = 0 then fl else fl + 1

/-- Python `%` on reals with a positive right operand: floored modulus. -/
def pymod (a m : ℚ) : ℚ := a - m * ⌊a / m⌋

/-- Python truthiness of the `ignore_next_command` attribute
(`None` and the empty string are falsy). -/
def pyTruthy : Option String → Bool
  | none => false
  | some s => !(s == "")

/-- The 24-bit color packing `Color(red, green, blue, white=0)` of
`rpi_ws281x`: `(white << 24) | (red << 16) | (green << 8) | blue`, with the
white channel always 0 in this codebase.  No masking/clamping is performed,
so a channel above 255 spills into the higher bits. -/
def Color (r g b : Nat) : Nat := (r <<< 16) ||| (g <<< 8) ||| b

/-- Colors.OFF -/
def OFF : Nat := Color 0 0 0

/-- Colors.WHITE -/
def WHITE : Nat := Color 255 255 255

/-- Colors.RED -/
def RED : Nat := Color 255 0 0

/-- Colors.GREEN -/
def GREEN : Nat := Color 0 255 0

/-- Colors.BLUE -/
def BLUE : Nat := Color 0 0 255

/-- Colors.YELLOW -/
def YELLOW : Nat := Color 255 200 0

/-- Colors.ORANGE -/
def ORANGE : Nat := Color 226 83 3

/-- Colors.RED2 -/
def RED2 : Nat := Color 2 0 0

/-- Module-level `dim_color(color, brightness)`: extract the 8-bit R/G/B
channels, multiply each by the factor, truncate with `int()`, repack.  The
factor is not clamped.  (For a negative factor Python would produce negative
channels; that only arises through the `FIXME`-marked `job_finished` path,
which no claim evaluates, so the truncation is embedded through `Int.toNat`,
exact for all factors handled here.) -/
def dim_color (color : Nat) (brightness : ℚ) : Nat :=
  let r := (color &&& 0xFF0000) >>> 16
  let g := (color &&& 0x00FF00) >>> 8
  let b := color &&& 0x0000FF
  Color (pyTrunc ((r : ℚ) * brightness)).toNat
        (pyTrunc ((g : ℚ) * brightness)).toNat
        (pyTrunc ((b : ℚ) * brightness)).toNat

/-- Red channel of a packed color, as the code itself reads it back. -/
def channel_red (c : Nat) : Nat := (c &&& 0xFF0000) >>> 16

/-- The `COMMANDS` alias table, in source order. -/
def COMMANDS : List (String × List String) := [
  ("UNKNOWN", ["unknown"]),
  ("DEBUG_STOP", ["DebugStop"]),
  ("ON", ["on", "all_on"]),
  ("OFF", ["off", "all_off"]),
  ("ROLLBACK", ["rollback"]),
  ("IGNORE_NEXT_COMMAND", ["ignore_next_command"]),
  ("IGNORE_STOP", ["ignore_stop"]),
  ("LISTENING", ["listening", "Listening", "_listening", "Startup"]),
  ("LISTENING_COLOR", ["listening_color"]),
  ("LISTENING_NET", ["listening_net", "listening_network"]),
  ("LISTENING_AP", ["listening_ap"]),
  ("LISTENING_AP_AND_NET", ["listening_ap_and_net", "listening_net_and_ap"]),
  ("LISTENING_FINDMRBEAM", ["listening_findmrbeam", "listening_find", "listening_findmymrbeam"]),
  ("CLIENT_OPENED", ["ClientOpened"]),
  ("CLIENT_CLOSED", ["ClientClosed"]),
  ("ERROR", ["Error"]),
  ("SHUTDOWN", ["Shutdown"]),
  ("SHUTDOWN_PREPARE", ["ShutdownPrepare"]),
  ("SHUTDOWN_PREPARE_CANCEL", ["ShutdownPrepareCancel"]),
  ("PRINT_STARTED", ["PrintStarted"]),
  ("PRINT_DONE", ["PrintDone"]),
  ("PRINT_CANCELLED", ["PrintCancelled"]),
  ("PRINT_PAUSED", ["PrintPaused"]),
  ("PRINT_PAUSED_TIMEOUT", ["PrintPausedTimeout"]),
  ("PRINT_PAUSED_TIMEOUT_BLOCK", ["PrintPausedTimeoutBlock"]),
  ("BUTTON_PRESS_REJECT", ["ButtonPressReject"]),
  ("PRINT_RESUMED", ["PrintResumed"]),
  ("PROGRESS", ["Progress", "progress"]),
  ("JOB_FINISHED", ["JobFinished", "job_finished"]),
  ("PAUSE", ["Pause", "pause"]),
  ("READY_TO_PRINT", ["ReadyToPrint"]),
  ("READY_TO_PRINT_CANCEL", ["ReadyToPrintCancel"]),
  ("SLICING_STARTED", ["SlicingStarted"]),
  ("SLICING_DONE", ["SlicingDone"]),
  ("SLICING_CANCELLED", ["SlicingCancelled"]),
  ("SLICING_FAILED", ["SlicingFailed"]),
  ("SLICING_PROGRESS", ["SlicingProgress", "slicing_progress"]),
  ("SETTINGS_UPDATED", ["SettingsUpdated"]),
  ("LASER_JOB_DONE", ["LaserJobDone"]),
  ("LASER_JOB_CANCELLED", ["LaserJobCancelled"]),
  ("LASER_JOB_FAILED", ["LaserJobFailed"]),
  ("PNG_ANIMATION", ["png"]),
  ("LENS_CALIBRATION", ["lens_calibration"]),
  ("WHITE", ["white", "all_white"]),
  ("RED", ["red", "all_red"]),
  ("GREEN", ["green", "all_green"]),
  ("BLUE", ["blue", "all_blue"]),
  ("YELLOW", ["yellow", "all_yellow"]),
  ("ORANGE", ["orange", "all_orange"]),
  ("FLASH_WHITE", ["flash_white"]),
  ("FLASH_RED", ["flash_red"]),
  ("FLASH_GREEN", ["flash_green"]),
  ("FLASH_BLUE", ["flash_blue"]),
  ("FLASH_YELLOW", ["flash_yellow"]),
  ("FLASH_ORANGE", ["flash_orange"]),
  ("BLINK_WHITE", ["blink_white"]),
  ("BLINK_RED", ["blink_red"]),
  ("BLINK_GREEN", ["blink_green"]),
  ("BLINK_BLUE", ["blink_blue"]),
  ("BLINK_YELLOW", ["blink_yellow"]),
  ("BLINK_ORANGE", ["blink_orange"]),
  ("CUSTOM_COLOR", ["color"]),
  ("FLASH_CUSTOM_COLOR", ["flash_color"]),
  ("BLINK_CUSTOM_COLOR", ["blink_color", "Upload", "upload"])]

/-- Lookup `COMMANDS[key]` (the alias list of a canonical command). -/
def commands (key : String) : List String :=
  match COMMANDS.find? (fun p => p.1 == key) with
  | some p => p.2
  | none => []

/-- The tuple `COMMANDS_REQ_ARG` of command IDs that require arguments. -/
def COMMANDS_REQ_ARG : List String :=
  ["CUSTOM_COLOR", "FLASH_CUSTOM_COLOR", "BLINK_CUSTOM_COLOR", "PNG_ANIMATION",
   "PROGRESS", "LISTENING_COLOR", "SLICING_PROGRESS", "DEBUG_STOP"]

/-- The list comprehension in the `handle` guard:
`[comm for key in COMMANDS_REQ_ARG for comm in COMMANDS[key]]`. -/
def reqArgCommands : List String := COMMANDS_REQ_ARG.flatMap commands

/-- The `SETTINGS` alias table. -/
def SETTINGS : List (String × List String) := [
  ("FPS", ["fps"]),
  ("SPREAD_SPECTRUM", ["spread_spectrum"]),
  ("BRIGHTNESS", ["brightness", "bright", "b"]),
  ("INSIDE_BRIGHTNESS", ["inside_brightness", "ib"]),
  ("EDGE_BRIGHTNESS", ["edge_brightness", "eb"])]

/-- Lookup `SETTINGS[key]`. -/
def settings (key : String) : List String :=
  match SETTINGS.find? (fun p => p.1 == key) with
  | some p => p.2
  | none => []

/-- `DEFAULT_STATE = COMMANDS['LISTENING'][0]` (that is, `"listening"`). -/
def DEFAULT_STATE : String := (commands "LISTENING").headI

/-- `MAX_HISTORY = 10`. -/
def MAX_HISTORY : Nat := 10

/-- `DEFAULT_FPS = 1.0`. -/
def DEFAULT_FPS : ℚ := 1

/-- The `fps` property setter: `value = value or DEFAULT_FPS` (so `0` falls
back to the default), then `self._fps = max(abs(value), 1)`. -/
def fps_setter (value : ℚ) : ℚ :=
  let v := if value = 0 then DEFAULT_FPS else value
  max |v| 1

/-- The engine-state fields of the `LEDs` object that the claims are about.
The pixel-buffer fields (`strip`, `update_required`, `_last_interior`) and
the PNG cache are deliberately not part of this structure: no modelled claim
reads them, and the animations that write them change no field below. -/
structure LEDState where
  /-- `self.state`: the active command string. -/
  state : String
  /-- `self.past_states`: `deque([], MAX_HISTORY)`; head = oldest entry,
  last = most recent entry (`append`/`pop` act on the tail). -/
  past_states : List String
  /-- `self.frame` (a Python int; set to 0 by `loop()` before rendering). -/
  frame : Int
  /-- `self.ignore_next_command` (initially `None`). -/
  ignore_next_command : Option String
  /-- `self.job_progress`.  Python initialises it to the int `0` and later
  stores raw argument strings in it; both are consumed only via
  `parse_int`, so it is embedded uniformly as the string of the value. -/
  job_progress : String
  /-- `self.brightness` (from config, default 255). -/
  brightness : Int
  /-- `self.inside_brightness` (255). -/
  inside_brightness : Int
  /-- `self.edge_brightness` (255). -/
  edge_brightness : Int
  /-- `self._fps` (config `frames_per_second` through the setter). -/
  fps : ℚ
  /-- `self.running`. -/
  running : Bool
deriving DecidableEq, Repr

/-- The engine state right after `LEDs.__init__` under the default config of
`server.get_config` (`led_brigthness = 255`, `frames_per_second = 28`).
`self.frame` is only created later (by `loop()` or `change_state`); it is 0
in every scenario modelled here. -/
def init_state : LEDState :=
  { state := DEFAULT_STATE
    past_states := []
    frame := 0
    ignore_next_command := none
    job_progress := "0"
    brightness := 255
    inside_brightness := 255
    edge_brightness := 255
    fps := 28
    running := false }

/-- Append on `deque([], maxlen=10)`: push at the tail and silently drop the
head (oldest entry) when the deque is full. -/
def dequeAppend (h : List String) (x : String) : List String :=
  (h ++ [x]).drop (h.length + 1 - MAX_HISTORY)

/-- `LEDs.change_state(nu_state)`.  Returns the response string and the new
engine state.  Under the lock: a truthy `ignore_next_command` swallows the
call; otherwise the state is pushed/replaced on an actual transition and the
result string is built exactly as the three `format` calls do (note that in
the source the `ERROR` branch fills the placeholders with different fields
than the `OK` branch). -/
def change_state (nu_state : String) (st : LEDState) : String × LEDState :=
  if pyTruthy st.ignore_next_command then
    ("IGNORED " ++ nu_state ++ "   # " ++ st.state ++ " -> " ++ st.state,
     { st with ignore_next_command := none })
  else
    let old_state := st.state
    let st1 :=
      if st.state ≠ nu_state then
        { st with past_states := dequeAppend st.past_states st.state
                  state := nu_state
                  frame := 0 }
      else st
    if st1.state = nu_state ∨ nu_state ∈ commands "ROLLBACK" ∨
        nu_state ∈ commands "IGNORE_NEXT_COMMAND" ∨ nu_state ∈ commands "IGNORE_STOP" then
      ("OK " ++ st1.state ++ "   # " ++ old_state ++ " -> " ++ nu_state, st1)
    else
      ("ERROR " ++ nu_state ++ "   # " ++ old_state ++ " -> " ++ st1.state, st1)

/-- The pop loop of `rollback`: `for _ in range(steps): old_state =
self.past_states.pop()`.  Returns the value bound by the final pop (`none`
when `steps = 0`, in which case `old_state` is never bound) together with
the remaining history.  Callers have checked `steps ≤ length`. -/
def popN : Nat → List String → Option String × List String
  | 0, h => (none, h)
  | 1, h => (h.getLast?, h.dropLast)
  | n + 2, h => popN (n + 1) h.dropLast

/-- `LEDs.rollback(steps=1)`.  (`self._last_interior = None` only touches the
pixel cache.)  With enough history it pops `steps` entries and jumps to the
last popped one; with some but not enough history it jumps to the oldest
entry (`past_states[0]`) and clears the deque; with no history it falls back
to `DEFAULT_STATE`.  A call with `steps = 0` would leave `old_state` unbound
and raise `NameError`, which the model keeps for faithfulness (no caller
passes 0). -/
def rollback (steps : Nat) (st : LEDState) : Except PyErr LEDState :=
  if steps ≤ st.past_states.length then
    match popN steps st.past_states with
    | (some old_state, rest) =>
      Except.ok { st with state := old_state, past_states := rest }
    | (none, _) =>
      Except.error (PyErr.nameError "name old_state is not defined")
  else if st.past_states.length ≠ 0 then
    Except.ok { st with state := st.past_states.headI, past_states := [] }
  else
    Except.ok { st with state := DEFAULT_STATE }

/-- `LEDs.rollback_after_frames(frame, max_frames=0, steps=1)`.  The call
sites pass either a raw argument string or the literal int 0 (embedded as
`none`); `int(max_frames)` can raise `ValueError` on a bad string. -/
def rollback_after_frames (frame : Int) (max_frames_arg : Option String)
    (steps : Nat) (st : LEDState) : Except PyErr LEDState := do
  let max_frames ← match max_frames_arg with
    | none => pure (0 : Int)
    | some s => pyInt s
  if max_frames ≤ 0 then pure st
  else if max_frames < frame then rollback steps st
  else pure st

/-- `LEDs.fade_off(state_length, follow_state='ClientOpened')`: dims the side
LEDs (pixel-only) and then calls `change_state(follow_state)`. -/
def fade_off (st : LEDState) : LEDState :=
  (change_state "ClientOpened" st).2

/-- `LEDs._breath_factor(frame, f_count, state_length=2)`:
`1 - (abs((frame/state_length % f_count*2) - (f_count-1))/f_count)`.
By Python operator precedence (`%` and `*` associate left at the same
level) the expression in the first parenthesis is
`((frame/state_length) % f_count) * 2`. -/
def _breath_factor (frame f_count state_length : ℚ) : ℚ :=
  1 - |pymod (frame / state_length) f_count * 2 - (f_count - 1)| / f_count

/-- Modelled from the spec's words, for comparison with `_breath_factor`
(claim C4): `dim = 1 - |((frame/state_length) mod (2*f_count)) -
(f_count-1)| / f_count`. -/
def spec_breath_factor (frame f_count state_length : ℚ) : ℚ :=
  1 - |pymod (frame / state_length) (2 * f_count) - (f_count - 1)| / f_count

/-- The color selection of `LEDs.breathing` when a list of `n` colors is
given: `color_index = int(frame / f_count / 2) % len(color)`. -/
def breathing_color_index (frame : Int) (f_count : ℚ) (n : Nat) : Int :=
  (pyTrunc ((frame : ℚ) / f_count / 2)) % (n : Int)

/-- The color `LEDs.shutdown_prepare(frame, duration_seconds=5)` passes to
`static_color`: blink with a 10-frame duty cycle; while blinking on and
before the peak frame, `brightness = max(int(205 * (1 - frame/peak_frame)),
0)` — an integer, not a [0,1] fraction — is handed to `dim_color` on red. -/
def shutdown_prepare_color (frame : Int) (fps : ℚ) (duration_seconds : ℚ) : Nat :=
  let brightness_start_val : ℚ := 205
  let peak_frame : ℚ := duration_seconds * fps
  if 3 < frame % 10 then
    if (frame : ℚ) ≤ peak_frame then
      let brightness := max (pyTrunc (brightness_start_val * (1 - (frame : ℚ) / peak_frame))) 0
      dim_color RED (brightness : ℚ)
    else RED
  else OFF

/-- `LEDs.job_finished(frame, state_length=1)` up to its effect on control
flow: the pixel writes are omitted, but once the wipe phase is over
(`f >= l*2` with `l = 7`) the dimming branch reads the undefined name
`r`, raising `NameError`.  `f` is `round(frame/state_length) % (fps + 14)`
(a Python float modulus, since `fps` is a float). -/
def job_finished_engine (frame : Int) (fps : ℚ) : Except PyErr Unit :=
  let f : ℚ := pymod ((pyRound ((frame : ℚ) / 1) : ℤ) : ℚ) (fps + 14)
  if f < 14 then Except.ok ()
  else Except.error (PyErr.nameError "name r is not defined")

/-- Index into `args`, raising `IndexError` like Python when out of range. -/
def getArg (args : List String) (i : Nat) : Except PyErr String :=
  match args[i]? with
  | some a => Except.ok a
  | none => Except.error PyErr.indexError

/-- The `LISTENING_COLOR` branch of `handle`:
`color = Color(*(int(a) for a in args[:3]))` — each `int()` may raise
`ValueError`, and fewer than three values makes `Color()` itself fail with
`TypeError` — then the optional background color from `args[3:6]` when at
least 6 args are present.  The colors only feed `breathing` (pixel-only). -/
def listening_color_branch (args : List String) (st : LEDState) : Except PyErr LEDState := do
  let vals ← (args.take 3).mapM pyInt
  if vals.length < 3 then
    Except.error (PyErr.typeError "Color() missing required positional arguments")
  else do
    let _bg ← if 6 ≤ args.length then ((args.drop 3).take 3).mapM pyInt else pure []
    pure st

/-- The shared argument handling of the six `WHITE`/`RED`/... static-color
branches and of `CUSTOM_COLOR`'s tail: `static_color` is pixel-only, then
`rollback_after_frames(frame, args.pop(0) if len(args) > 0 else 0)`. -/
def static_then_rollback (args : List String) (st : LEDState) : Except PyErr LEDState :=
  rollback_after_frames st.frame args.head? 1 st

/-- The `CUSTOM_COLOR` branch: `r, g, b = (int(args[i]) for i in range(3))`
(missing index raises `IndexError`, bad digits `ValueError`; the generator
does not consume `args`), `static_color`, then `rollback_after_frames` on
`args.pop(0)` — which is the *first color component*, since nothing was
popped before. -/
def custom_color_branch (args : List String) (st : LEDState) : Except PyErr LEDState := do
  let a0 ← getArg args 0
  let _r ← pyInt a0
  let a1 ← getArg args 1
  let _g ← pyInt a1
  let a2 ← getArg args 2
  let _b ← pyInt a2
  rollback_after_frames st.frame args.head? 1 st

/-- The shared argument handling of all `FLASH_<color>` and `BLINK_<color>`
branches: `state_length = int(args.pop(0)) if len(args) > 0 else <default>`
(the default only shapes the pixel animation), then
`rollback_after_frames(frame, args.pop(0) if len(args) > 0 else 0)` on the
remaining args. -/
def flash_blink_branch (args : List String) (st : LEDState) : Except PyErr LEDState := do
  match args with
  | [] => rollback_after_frames st.frame none 1 st
  | a :: rest => do
    let _state_length ← pyInt a
    rollback_after_frames st.frame rest.head? 1 st

/-- The `FLASH_CUSTOM_COLOR` branch: three color components via `int(args[i])`
(no pops), `state_length = int(args[3]) if len(args) > 3 else 1`, then
`rollback_after_frames` on `args.pop(0)` (again the first color component). -/
def flash_custom_branch (args : List String) (st : LEDState) : Except PyErr LEDState := do
  let a0 ← getArg args 0
  let _r ← pyInt a0
  let a1 ← getArg args 1
  let _g ← pyInt a1
  let a2 ← getArg args 2
  let _b ← pyInt a2
  let _state_length ← if 3 < args.length then do
      let a3 ← getArg args 3
      pyInt a3
    else pure 1
  rollback_after_frames st.frame args.head? 1 st

/-- The `try` block of the `BLINK_CUSTOM_COLOR` branch:
`try: r = int(args.pop(0)); g = ...; b = ... except: pass`.  Returns the
args remaining after the block; how many entries were consumed depends on
where the first failure (bad digits or exhausted list), if any, occurred. -/
def tryPop3 (args : List String) : List String :=
  match args with
  | [] => []
  | a :: rest =>
    if !(pyIntOk a) then rest
    else match rest with
      | [] => []
      | b :: rest2 =>
        if !(pyIntOk b) then rest2
        else match rest2 with
          | [] => []
          | _c :: rest3 => rest3

/-- The `BLINK_CUSTOM_COLOR` branch after its `try` block:
`state_length = int(args.pop(0)) if len(args) > 0 else 8` (this `int` is
*outside* the `try`, so it can raise), then `rollback_after_frames` on the
next remaining arg. -/
def blink_custom_branch (args : List String) (st : LEDState) : Except PyErr LEDState := do
  match tryPop3 args with
  | [] => rollback_after_frames st.frame none 1 st
  | a :: rest => do
    let _state_length ← pyInt a
    rollback_after_frames st.frame rest.head? 1 st

/-- `LEDs.handle(command, args)` up to (excluding) the final frame
increment: the required-args guard followed by the long `elif` chain.
Pixel-buffer writes (`_set_color`, `_update`, the colors handed to the
animations) touch no field of `LEDState` and are omitted; every branch is
embedded through its engine-state effect and the exceptions its argument
handling can raise.  `png()` additionally performs file I/O (a collaborator
concern) whose failure modes are not modelled.  When a branch raises after
a partial mutation (only possible in `PROGRESS`, whose `job_progress`
assignment precedes the failing parse), the error outcome discards the
partial state; the render loop dies on such an error either way. -/
def dispatch (command : String) (args : List String) (st : LEDState) : Except PyErr LEDState :=
  if command ∈ reqArgCommands ∧ args = [] then
    Except.error (PyErr.valueError ("command " ++ command ++ " requires arguments."))
  else if command ∈ commands "LISTENING" ∨ command ∈ commands "UNKNOWN" then
    pure st
  else if command ∈ commands "LISTENING_NET" then pure st
  else if command ∈ commands "LISTENING_AP" then pure st
  else if command ∈ commands "LISTENING_AP_AND_NET" then pure st
  else if command ∈ commands "LISTENING_FINDMRBEAM" then pure st
  else if command ∈ commands "LISTENING_COLOR" then listening_color_branch args st
  else if command ∈ commands "ON" then pure { st with brightness := 255 }
  else if command ∈ commands "ROLLBACK" then rollback 2 st
  else if command ∈ commands "CLIENT_OPENED" then pure st
  else if command ∈ commands "CLIENT_CLOSED" then pure st
  else if command ∈ commands "ERROR" then pure st
  else if command ∈ commands "SHUTDOWN_PREPARE" then pure st
  else if command ∈ commands "SHUTDOWN" then pure st
  else if command ∈ commands "SHUTDOWN_PREPARE_CANCEL" then rollback 2 st
  else if command ∈ commands "PRINT_STARTED" then pure st
  else if command ∈ commands "PRINT_DONE" then pure { st with job_progress := "0" }
  else if command ∈ commands "PRINT_CANCELLED" then pure { st with job_progress := "0" }
  else if command ∈ commands "LASER_JOB_DONE" then do
    let st1 := { st with job_progress := "0" }
    let _ ← job_finished_engine st1.frame st1.fps
    pure st1
  else if command ∈ commands "LASER_JOB_CANCELLED" then
    pure (fade_off { st with job_progress := "0" })
  else if command ∈ commands "LASER_JOB_FAILED" then pure (fade_off st)
  else if command ∈ commands "PRINT_PAUSED" then do
    let _ ← parse_int st.job_progress
    pure st
  else if command ∈ commands "PRINT_PAUSED_TIMEOUT" then do
    let _ ← parse_int st.job_progress
    pure st
  else if command ∈ commands "PRINT_PAUSED_TIMEOUT_BLOCK" then
    if st.fps < (st.frame : ℚ) then
      pure (change_state (commands "PRINT_PAUSED_TIMEOUT").headI st).2
    else do
      let _ ← parse_int st.job_progress
      pure st
  else if command ∈ commands "PRINT_RESUMED" then do
    let _ ← parse_int st.job_progress
    pure st
  else if command ∈ commands "PROGRESS" then do
    let v := args.headI
    let st1 := { st with job_progress := v }
    let _ ← parse_int v
    pure st1
  else if command ∈ commands "JOB_FINISHED" then do
    let _ ← job_finished_engine st.frame st.fps
    pure st
  else if command ∈ commands "PAUSE" then do
    let _ ← parse_int st.job_progress
    pure st
  else if command ∈ commands "READY_TO_PRINT" then pure st
  else if command ∈ commands "READY_TO_PRINT_CANCEL" then pure st
  else if command ∈ commands "BUTTON_PRESS_REJECT" then
    if st.fps < (st.frame : ℚ) then rollback 1 st
    else do
      let _ ← parse_int st.job_progress
      pure st
  else if command ∈ commands "SLICING_STARTED" then pure st
  else if command ∈ commands "SLICING_DONE" then pure st
  else if command ∈ commands "SLICING_CANCELLED" then pure st
  else if command ∈ commands "SLICING_FAILED" then pure (fade_off st)
  else if command ∈ commands "SLICING_PROGRESS" then do
    let _ ← parse_int args.headI
    pure st
  else if command ∈ commands "SETTINGS_UPDATED" then
    if 50 < st.frame then rollback 1 st else pure st
  else if command ∈ commands "LENS_CALIBRATION" then
    rollback_after_frames st.frame args.head? 1 st
  else if command ∈ commands "PNG_ANIMATION" then pure st
  else if command ∈ commands "OFF" then pure st
  else if command ∈ commands "WHITE" then static_then_rollback args st
  else if command ∈ commands "RED" then static_then_rollback args st
  else if command ∈ commands "GREEN" then static_then_rollback args st
  else if command ∈ commands "BLUE" then static_then_rollback args st
  else if command ∈ commands "YELLOW" then static_then_rollback args st
  else if command ∈ commands "ORANGE" then static_then_rollback args st
  else if command ∈ commands "CUSTOM_COLOR" then custom_color_branch args st
  else if command ∈ commands "FLASH_WHITE" then flash_blink_branch args st
  else if command ∈ commands "FLASH_RED" then flash_blink_branch args st
  else if command ∈ commands "FLASH_GREEN" then flash_blink_branch args st
  else if command ∈ commands "FLASH_BLUE" then flash_blink_branch args st
  else if command ∈ commands "FLASH_YELLOW" then flash_blink_branch args st
  else if command ∈ commands "FLASH_ORANGE" then flash_blink_branch args st
  else if command ∈ commands "FLASH_CUSTOM_COLOR" then flash_custom_branch args st
  else if command ∈ commands "BLINK_WHITE" then flash_blink_branch args st
  else if command ∈ commands "BLINK_RED" then flash_blink_branch args st
  else if command ∈ commands "BLINK_GREEN" then flash_blink_branch args st
  else if command ∈ commands "BLINK_BLUE" then flash_blink_branch args st
  else if command ∈ commands "BLINK_YELLOW" then flash_blink_branch args st
  else if command ∈ commands "BLINK_ORANGE" then flash_blink_branch args st
  else if command ∈ commands "BLINK_CUSTOM_COLOR" then blink_custom_branch args st
  else if command ∈ commands "IGNORE_NEXT_COMMAND" then
    rollback 1 { st with ignore_next_command := some command }
  else if command ∈ commands "IGNORE_STOP" then
    rollback 1 { st with ignore_next_command := none }
  else if command ∈ commands "DEBUG_STOP" then
    match pyFloatCore args.headI with
    | some _ => rollback 1 st
    | none =>
      Except.error (PyErr.valueError ("could not convert string to float: " ++ args.headI))
  else
    pure { st with state := (commands "UNKNOWN").headI }

/-- `LEDs.handle(command, args)`: the dispatch above followed by
`self.frame += 1; self.frame = max(0, self.frame)` (the int-overflow guard)
and `time.sleep(self.frame_duration)` (not modelled). -/
def handle (command : String) (args : List String) (st : LEDState) : Except PyErr LEDState :=
  match dispatch command args st with
  | Except.ok st1 => Except.ok { st1 with frame := max 0 (st1.frame + 1) }
  | Except.error e => Except.error e

/-- `LEDs.parse_input(data)`: an empty/absent raw input falls back to
`COMMANDS['OFF'][0]`; the string splits on `:` into the command token and
the argument list. -/
def parse_input (data : String) : String × List String :=
  let state_string := if data = "" then (commands "OFF").headI else data
  let params := (splitOnChar ':' state_string.data).map (fun cs => (⟨cs⟩ : String))
  (params.headI, params.tail)

/-- Outcome of the render loop under a step budget. -/
inductive LoopResult where
  /-- The step budget ran out while the loop was still iterating. -/
  | fuelOut (st : LEDState)
  /-- The `running` flag was observed false: normal exit. -/
  | stopped (st : LEDState)
  /-- An exception escaped `handle`.  The `except Exception` handler of
  `loop` sits *outside* the `while`, so it logs and the loop function
  returns; `st` is the engine state at the failed iteration (`running` is
  still true). -/
  | exception (e : PyErr) (st : LEDState)
deriving DecidableEq, Repr

/-- The `while self.running` body of `LEDs.loop`, with an explicit step
budget standing in for unbounded iteration. -/
def loopRun : Nat → LEDState → LoopResult
  | 0, st => LoopResult.fuelOut st
  | fuel + 1, st =>
    if st.running then
      let cp := parse_input st.state
      match handle cp.1 cp.2 st with
      | Except.ok st1 => loopRun fuel st1
      | Except.error e => LoopResult.exception e st
    else LoopResult.stopped st

/-- `LEDs.loop()`: `self.running = True; self.frame = 0;` then the `while`.
(`KeyboardInterrupt` handling concerns only an interactive console.) -/
def loop (fuel : Nat) (st : LEDState) : LoopResult :=
  loopRun fuel { st with running := true, frame := 0 }

/-- The module-level function `_parse8bit(self, val)`.  Note that it is
declared *outside* the `LEDs` class yet takes two required positional
parameters; its body is `int(val) & 0xff` (masking with `0xff` is `mod 2^8`
on a Python int), re-raising `ValueError` with its own message.  The first
parameter is unused by the body. -/
def _parse8bit (self val : String) : Except PyErr Int :=
  match pyIntCore val with
  | some n => Except.ok (n % 256)
  | none =>
    Except.error (PyErr.valueError ("Could not parse " ++ val ++ " as an 8 bit integer"))

/-- The `TypeError` produced by calling the two-parameter `_parse8bit` with
a single argument. -/
def parse8bitArityError : PyErr :=
  PyErr.typeError "_parse8bit() missing 1 required positional argument: val"

/-- `LEDs.set_brightness(bright)` runs `self.brightness = _parse8bit(bright)`.
The call passes one argument to the two-parameter module function
`_parse8bit(self, val)`, so Python raises `TypeError` before any parsing;
`self.brightness` is never assigned. -/
def set_brightness (bright : String) (st : LEDState) : Except PyErr (Int × LEDState) :=
  Except.error parse8bitArityError

/-- `LEDs.set_inside_brightness(bright)`: same one-argument call to
`_parse8bit`, so the same `TypeError`; neither `self.inside_brightness` nor
`self.update_required` is ever assigned. -/
def set_inside_brightness (bright : String) (st : LEDState) : Except PyErr (Int × LEDState) :=
  Except.error parse8bitArityError

/-- `LEDs.set_edge_brightness(bright)`: same one-argument call to
`_parse8bit`, so the same `TypeError`. -/
def set_edge_brightness (bright : String) (st : LEDState) : Except PyErr (Int × LEDState) :=
  Except.error parse8bitArityError

/-- The return value of `LEDs.spread_spectrum(params)` (the strip
re-initialisation is hardware I/O).  `params[0]` must exist (the caller
checks emptiness before via `params[0]`, see `set_setting`).  With `on` and
`len(params) = 4`, reading `params[4]` raises `IndexError`, which the bare
`except:` swallows — the function then returns `None`, as it does for bad
digits or any other parameter shape. -/
def spread_spectrum_result (params : List String) : Option String :=
  match params.headI with
  | "off" => some "off"
  | "on" =>
    if params.length = 4 ∨ params.length = 5 then
      if params.length = 4 then none
      else
        match pyIntCore (params.getD 1 ""), pyIntCore (params.getD 2 ""),
            pyIntCore (params.getD 3 ""), pyIntCore (params.getD 4 "") with
        | some freq, some bw, some cw, some hd =>
          some ("freq=" ++ toString freq ++ ", bandwidth=" ++ toString bw ++
            ", channel_width=" ++ toString cw ++ ", hopping_delay=" ++ toString hd ++
            ", random:False")
        | _, _, _, _ => none
    else none
  | _ => none

/-- `LEDs.set_setting(setting, params)`.  Only `ValueError` is caught by the
`except` clause; the `TypeError` from the brightness setters and the
`IndexError` from `params[0]` on an empty parameter list propagate to the
caller.  On success returns `"OK setting <name> -> <value>"`, otherwise an
`"ERROR ..."` string. -/
def set_setting (setting : String) (params : List String) (st : LEDState) :
    Except PyErr (String × LEDState) :=
  if setting ∈ settings "BRIGHTNESS" then
    match params.headI, params with
    | _, [] => Except.error PyErr.indexError
    | p, _ =>
      match set_brightness p st with
      | Except.ok (v, st1) => Except.ok ("OK setting " ++ setting ++ " -> " ++ toString v, st1)
      | Except.error e => Except.error e
  else if setting ∈ settings "INSIDE_BRIGHTNESS" then
    match params.headI, params with
    | _, [] => Except.error PyErr.indexError
    | p, _ =>
      match set_inside_brightness p st with
      | Except.ok (v, st1) => Except.ok ("OK setting " ++ setting ++ " -> " ++ toString v, st1)
      | Except.error e => Except.error e
  else if setting ∈ settings "EDGE_BRIGHTNESS" then
    match params.headI, params with
    | _, [] => Except.error PyErr.indexError
    | p, _ =>
      match set_edge_brightness p st with
      | Except.ok (v, st1) => Except.ok ("OK setting " ++ setting ++ " -> " ++ toString v, st1)
      | Except.error e => Except.error e
  else if setting ∈ settings "FPS" then
    match params with
    | [] => Except.error PyErr.indexError
    | p :: _ =>
      match pyIntCore p with
      | some v =>
        let st1 := { st with fps := fps_setter (v : ℚ) }
        Except.ok ("OK setting " ++ setting ++ " -> " ++ toString st1.fps, st1)
      | none =>
        Except.ok ("ERROR, could not parse the setting or parameters " ++ setting, st)
  else if setting ∈ settings "SPREAD_SPECTRUM" then
    match params with
    | [] => Except.error PyErr.indexError
    | _ =>
      match spread_spectrum_result params with
      | some v => Except.ok ("OK setting " ++ setting ++ " -> " ++ v, st)
      | none => Except.ok ("ERROR setting " ++ setting, st)
  else
    Except.ok ("ERROR setting " ++ setting, st)

/-- The diagnostic block returned by `Server.get_info` for `info`/`?`.  Its
body (version, threads, config dump) is process-introspection I/O; only its
role as a non-state-changing response is modelled. -/
def info_response (st : LEDState) : String := "INFO: "

/-- `Server.on_state_change(state)`: the complete command dispatch of the
socket server.  `info` and `?` answer the diagnostic block; *everything*
else — including strings with a leading `set` token — is handed verbatim
to `LEDs.change_state`.  There is no settings branch: `set_setting` has no
caller in this codebase. -/
def on_state_change (state : String) (st : LEDState) : String × LEDState :=
  if state = "info" ∨ state = "?" then (info_response st, st)
  else change_state state st

/-! ## Helper lemmas -/

theorem popN_spec : ∀ (steps : Nat) (h : List String), 1 ≤ steps → steps ≤ h.length →
    popN steps h = (some (h.getD (h.length - steps) ""), h.take (h.length - steps))
  | 0, _, h1, _ => absurd h1 (by omega)
  | 1, h, _, h2 => by
    have hlt : h.length - 1 < h.length := by omega
    rw [popN]
    refine Prod.ext ?_ ?_
    · show h.getLast? = some (h.getD (h.length - 1) "")
      rw [List.getLast?_eq_getElem?, List.getD_eq_getElem?_getD,
        List.getElem?_eq_getElem hlt]
      rfl
    · exact List.dropLast_eq_take h
  | (n + 2), h, _, h2 => by
    rw [popN, popN_spec (n + 1) h.dropLast (by omega)
      (by rw [List.length_dropLast]; omega)]
    have hi : h.dropLast.length - (n + 1) = h.length - (n + 2) := by
      rw [List.length_dropLast]; omega
    have hlt : h.length - (n + 2) < h.length - 1 := by omega
    refine Prod.ext ?_ ?_
    · show some (h.dropLast.getD (h.dropLast.length - (n + 1)) "") = _
      rw [hi, List.getD_eq_getElem?_getD, List.getD_eq_getElem?_getD,
        List.dropLast_eq_take, List.getElem?_take, if_pos hlt]
    · show h.dropLast.take (h.dropLast.length - (n + 1)) = _
      rw [hi, List.dropLast_eq_take, List.take_take,
        min_eq_left (by omega)]

theorem rollback_preserves_frame (steps : Nat) (st st1 : LEDState)
    (h : rollback steps st = Except.ok st1) : st1.frame = st.frame := by
  unfold rollback at h
  split at h
  · split at h
    · cases h; rfl
    · cases h
  · split at h
    · cases h; rfl
    · cases h; rfl

theorem dequeAppend_length (h : List String) (x : String) :
    (dequeAppend h x).length = min (h.length + 1) 10 := by
  simp only [dequeAppend, MAX_HISTORY, List.length_drop, List.length_append,
    List.length_singleton]
  omega

theorem dequeAppend_eq (h : List String) (x : String) (hle : h.length ≤ 10) :
    dequeAppend h x = (if h.length = 10 then h.tail else h) ++ [x] := by
  unfold dequeAppend MAX_HISTORY
  by_cases h10 : h.length = 10
  · rw [if_pos h10, h10]
    show (h ++ [x]).drop 1 = h.tail ++ [x]
    rw [List.drop_append_of_le_length (by omega), List.drop_one]
  · have h0 : h.length + 1 - 10 = 0 := by omega
    rw [if_neg h10, h0, List.drop_zero]

theorem change_state_latched (st : LEDState) (nu : String)
    (h : pyTruthy st.ignore_next_command = true) :
    change_state nu st
      = ("IGNORED " ++ nu ++ "   # " ++ st.state ++ " -> " ++ st.state,
         { st with ignore_next_command := none }) := by
  unfold change_state
  rw [if_pos h]

theorem change_state_noop (st : LEDState) (nu : String)
    (h : pyTruthy st.ignore_next_command = false) (he : st.state = nu) :
    change_state nu st = ("OK " ++ st.state ++ "   # " ++ st.state ++ " -> " ++ nu, st) := by
  unfold change_state
  simp only [h, Bool.false_eq_true, if_false, he, ne_eq, not_true_eq_false, ite_false,
    ite_true, true_or, if_pos]

theorem change_state_step (st : LEDState) (nu : String)
    (h : pyTruthy st.ignore_next_command = false) (he : st.state ≠ nu) :
    change_state nu st
      = ("OK " ++ nu ++ "   # " ++ st.state ++ " -> " ++ nu,
         { st with past_states := dequeAppend st.past_states st.state
                   state := nu
                   frame := 0 }) := by
  unfold change_state
  simp only [h, Bool.false_eq_true, if_false, he, ne_eq, not_false_eq_true, ite_true,
    true_or, if_pos]

/-! ## Concrete states used by witnesses and counterexamples -/

/-- A state whose history is full (10 entries). -/
def full10 : LEDState :=
  { init_state with
    state := "blue"
    past_states := ["s0", "s1", "s2", "s3", "s4", "s5", "s6", "s7", "s8", "s9"] }

/-- A state with the ignore latch set, as the `IGNORE_NEXT_COMMAND` command
leaves it (`self.ignore_next_command = command`). -/
def latched : LEDState :=
  { init_state with ignore_next_command := some "ignore_next_command" }

/-! ## The claims -/

/-- C2: for every positive `steps`, `rollback(steps)` never raises: with at
least `steps` history entries it pops `steps` entries from the back and
jumps to the last popped one; with a non-empty but shorter history it jumps
to the oldest entry and clears the history; with no history it falls back
to the default `LISTENING` state (`DEFAULT_STATE = "listening"`). -/
theorem C2_rollback (steps : Nat) (st : LEDState) (hs : 1 ≤ steps) :
    ∃ st1, rollback steps st = Except.ok st1
      ∧ st1.frame = st.frame
      ∧ ((steps ≤ st.past_states.length ∧
            st1.state = st.past_states.getD (st.past_states.length - steps) "" ∧
            st1.past_states = st.past_states.take (st.past_states.length - steps))
         ∨ (st.past_states ≠ [] ∧ st.past_states.length < steps ∧
            st1.state = st.past_states.headI ∧ st1.past_states = [])
         ∨ (st.past_states = [] ∧ st1.state = DEFAULT_STATE ∧
            st1.past_states = [])) := by
  unfold rollback
  by_cases h1 : steps ≤ st.past_states.length
  · rw [if_pos h1, popN_spec steps _ hs h1]
    exact ⟨_, rfl, rfl, Or.inl ⟨h1, rfl, rfl⟩⟩
  · rw [if_neg h1]
    by_cases h2 : st.past_states.length ≠ 0
    · rw [if_pos h2]
      exact ⟨_, rfl, rfl, Or.inr (Or.inl
        ⟨List.ne_nil_of_length_pos (by omega), by omega, rfl, rfl⟩)⟩
    · rw [if_neg h2]
      have : st.past_states = [] := List.length_eq_zero.mp (by omega)
      exact ⟨_, rfl, rfl, Or.inr (Or.inr ⟨this, rfl, this⟩)⟩

/-- C2 witness: `rollback 2` on a 3-entry history at a concrete state. -/
theorem C2_rollback_witness :
    ∃ st1, rollback 2 { init_state with state := "a", past_states := ["x", "y", "z"] }
        = Except.ok st1
      ∧ st1.frame = ({ init_state with state := "a", past_states := ["x", "y", "z"] } : LEDState).frame
      ∧ ((2 ≤ (["x", "y", "z"] : List String).length ∧
            st1.state = (["x", "y", "z"] : List String).getD ((["x", "y", "z"] : List String).length - 2) "" ∧
            st1.past_states = (["x", "y", "z"] : List String).take ((["x", "y", "z"] : List String).length - 2))
         ∨ ((["x", "y", "z"] : List String) ≠ [] ∧ (["x", "y", "z"] : List String).length < 2 ∧
            st1.state = (["x", "y", "z"] : List String).headI ∧ st1.past_states = [])
         ∨ ((["x", "y", "z"] : List String) = [] ∧ st1.state = DEFAULT_STATE ∧
            st1.past_states = [])) :=
  C2_rollback 2 { init_state with state := "a", past_states := ["x", "y", "z"] } (by omega)

/-- C3: the history holds at most 10 entries, with FIFO eviction of the
oldest entry on overflow; `change_state` pushes the previous state only on
an actual transition; sending the same command twice in a row pushes no
duplicate entry, and the second call leaves the whole engine state
unchanged. -/
theorem C3_history (st : LEDState) (nu : String)
    (h : pyTruthy st.ignore_next_command = false) :
    (st.past_states.length ≤ 10 → ((change_state nu st).2).past_states.length ≤ 10)
    ∧ (st.state ≠ nu → st.past_states.length ≤ 10 →
        ((change_state nu st).2).past_states =
          (if st.past_states.length = 10 then st.past_states.tail else st.past_states)
            ++ [st.state])
    ∧ (st.state = nu → (change_state nu st).2 = st)
    ∧ (change_state nu ((change_state nu st).2)).2 = (change_state nu st).2 := by
  refine ⟨?_, ?_, ?_, ?_⟩
  · intro hle
    by_cases he : st.state = nu
    · rw [change_state_noop st nu h he]
      exact hle
    · rw [change_state_step st nu h he]
      show (dequeAppend st.past_states st.state).length ≤ 10
      rw [dequeAppend_length]
      omega
  · intro he hle
    rw [change_state_step st nu h he]
    exact dequeAppend_eq st.past_states st.state hle
  · intro he
    rw [change_state_noop st nu h he]
  · have key : ∀ (s : LEDState), pyTruthy s.ignore_next_command = false → s.state = nu →
        (change_state nu s).2 = s := by
      intro s hs he2
      rw [change_state_noop s nu hs he2]
    by_cases he : st.state = nu
    · rw [change_state_noop st nu h he]
      exact key st h he
    · rw [change_state_step st nu h he]
      exact key _ h rfl

/-- C3 witness: a transition at a full 10-entry history followed by a
repeat of the same command, at concrete states. -/
theorem C3_history_witness :
    ((full10.past_states.length ≤ 10 → ((change_state "red" full10).2).past_states.length ≤ 10)
    ∧ (full10.state ≠ "red" → full10.past_states.length ≤ 10 →
        ((change_state "red" full10).2).past_states =
          (if full10.past_states.length = 10 then full10.past_states.tail else full10.past_states)
            ++ [full10.state])
    ∧ (full10.state = "red" → (change_state "red" full10).2 = full10)
    ∧ (change_state "red" ((change_state "red" full10).2)).2 = (change_state "red" full10).2) :=
  C3_history full10 "red" (by decide)

/-- C9: with the latch set (truthy), `change_state` — whatever state string
it carries — returns the `IGNORED` response, clears the latch, and alters
nothing else; exactly one call is rejected: the latch is no longer truthy
afterwards, and a second `change_state` goes through normally (the stored
state becomes its argument). -/
theorem C9_latch (st : LEDState) (nu nu2 : String)
    (h : pyTruthy st.ignore_next_command = true) :
    change_state nu st
      = ("IGNORED " ++ nu ++ "   # " ++ st.state ++ " -> " ++ st.state,
         { st with ignore_next_command := none })
    ∧ pyTruthy ((change_state nu st).2).ignore_next_command = false
    ∧ ((change_state nu2 ((change_state nu st).2)).2).state = nu2 := by
  have h1 := change_state_latched st nu h
  refine ⟨h1, ?_, ?_⟩
  · rw [h1]
    rfl
  · rw [h1]
    show ((change_state nu2 { st with ignore_next_command := none }).2).state = nu2
    by_cases he : ({ st with ignore_next_command := none } : LEDState).state = nu2
    · rw [change_state_noop { st with ignore_next_command := none } nu2 rfl he]
      exact he
    · rw [change_state_step { st with ignore_next_command := none } nu2 rfl he]

/-- C9 witness: the latch as set by the `IGNORE_NEXT_COMMAND` command,
rejecting one `red` and then accepting a `blue`. -/
theorem C9_latch_witness :
    change_state "red" latched
      = ("IGNORED red   # " ++ latched.state ++ " -> " ++ latched.state,
         { latched with ignore_next_command := none })
    ∧ pyTruthy ((change_state "red" latched).2).ignore_next_command = false
    ∧ ((change_state "blue" ((change_state "red" latched).2)).2).state = "blue" :=
  C9_latch latched "red" "blue" (by decide)

/-- C10: with the latch not set, `change_state(nu_state)` returns the `OK`
response for every input string, including strings matching no known
command alias, and the stored state always equals `nu_state` afterwards —
the `ERROR` branch is unreachable, because the preceding conditional
assignment guarantees `self.state == nu_state`. -/
theorem C10_always_ok (st : LEDState) (nu : String)
    (h : pyTruthy st.ignore_next_command = false) :
    ∃ rest, (change_state nu st).1 = "OK " ++ rest
      ∧ ((change_state nu st).2).state = nu := by
  by_cases he : st.state = nu
  · rw [change_state_noop st nu h he]
    exact ⟨st.state ++ ("   # " ++ (st.state ++ (" -> " ++ nu))), by
      simp only [String.append_assoc], he⟩
  · rw [change_state_step st nu h he]
    exact ⟨nu ++ ("   # " ++ (st.state ++ (" -> " ++ nu))), by
      simp only [String.append_assoc], rfl⟩

/-- C10 witness: the alias-less string `bogus_state` still gets an `OK`
response and becomes the stored state. -/
theorem C10_always_ok_witness :
    ∃ rest, (change_state "bogus_state" init_state).1 = "OK " ++ rest
      ∧ ((change_state "bogus_state" init_state).2).state = "bogus_state" :=
  C10_always_ok init_state "bogus_state" (by decide)

/-- C1 counterexample: with `current_state = "color"` (a `requires_args`
alias, no arguments), a single render-loop pass raises the `ValueError` and
the loop function returns — even with 99 steps of budget left the result is
`exception`, not a continued run; the state at exit is still `"color"`, not
the `UNKNOWN` fallback (`"unknown"`), and `running` is still true although
the loop is gone.  This refutes the claim that the loop logs a warning,
falls back to `UNKNOWN` for that frame only and keeps running. -/
theorem C1_counterexample :
    loop 100 { init_state with state := "color" }
      = LoopResult.exception (PyErr.valueError "command color requires arguments.")
        { init_state with state := "color", running := true }
    ∧ ({ init_state with state := "color", running := true } : LEDState).state ≠ "unknown"
    ∧ ({ init_state with state := "color", running := true } : LEDState).running = true :=
  ⟨rfl, by decide, rfl⟩

/-- C1 (amended): dispatching any `requires_args` alias with an empty
argument list raises a `ValueError` (the spec's `ArgumentError`) before any
state mutation, so `current_state` is unchanged; but the render loop's
`except` block sits *outside* the `while`, so the loop logs the exception
and terminates — it does not fall back to the `UNKNOWN` animation and does
not continue running. -/
theorem C1_amended (cmd : String) (st st0 : LEDState) (fuel : Nat)
    (hc : cmd ∈ reqArgCommands) (hrun : st0.running = true)
    (hparse : parse_input st0.state = (cmd, [])) :
    dispatch cmd [] st
      = Except.error (PyErr.valueError ("command " ++ cmd ++ " requires arguments."))
    ∧ loopRun (fuel + 1) st0
      = LoopResult.exception
          (PyErr.valueError ("command " ++ cmd ++ " requires arguments.")) st0 := by
  have hd : ∀ s : LEDState, dispatch cmd [] s
      = Except.error (PyErr.valueError ("command " ++ cmd ++ " requires arguments.")) := by
    intro s
    unfold dispatch
    rw [if_pos ⟨hc, rfl⟩]
  have hh : handle cmd [] st0
      = Except.error (PyErr.valueError ("command " ++ cmd ++ " requires arguments.")) := by
    unfold handle
    rw [hd st0]
  refine ⟨hd st, ?_⟩
  simp only [loopRun, hrun, if_true, hparse, hh]

/-- C1 witness: the amended claim at `cmd = "color"` with 100 steps of loop
budget. -/
theorem C1_amended_witness :
    dispatch "color" [] init_state
      = Except.error (PyErr.valueError "command color requires arguments.")
    ∧ loopRun 100 { init_state with state := "color", running := true }
      = LoopResult.exception (PyErr.valueError "command color requires arguments.")
        { init_state with state := "color", running := true } :=
  C1_amended "color" init_state { init_state with state := "color", running := true } 99
    (by decide) rfl rfl

/-- A state mid-run with some history, used to exercise a rollback
transition. -/
def c8_state : LEDState :=
  { init_state with
    state := "red"
    past_states := ["white", "green", "blue"]
    frame := 5
    running := true }

/-- C8 counterexample: one loop iteration of the `rollback` command on a
state with history and `frame = 5`: `rollback(2)` transitions
`current_state` from `red` back to `green`, yet the frame counter is not
reset — the iteration ends with `frame = 6`, not `0`.  This refutes the
claim that the counter is reset on every transition including those
performed by rollback. -/
theorem C8_counterexample :
    handle "rollback" [] c8_state
      = Except.ok { c8_state with state := "green", past_states := ["white"], frame := 6 }
    ∧ ((6 : Int) ≠ 0) :=
  ⟨rfl, by decide⟩

/-- C8 (amended): the frame counter never goes negative and `handle`
increments it by exactly 1 per iteration when the dispatched branch did not
touch it; `change_state` resets it to 0 on an actual transition, but
`rollback` does *not* reset it — a transition performed by rollback keeps
the running counter. -/
theorem C8_amended (st stR stH stMid : LEDState) (steps : Nat) (nu cmd : String)
    (args : List String)
    (hroll : rollback steps st = Except.ok stR)
    (hlatch : pyTruthy st.ignore_next_command = false) (hne : st.state ≠ nu)
    (hhandle : handle cmd args st = Except.ok stH)
    (hdisp : dispatch cmd args st = Except.ok stMid) (hfr : stMid.frame = st.frame)
    (h0 : 0 ≤ st.frame) :
    stR.frame = st.frame
    ∧ ((change_state nu st).2).frame = 0
    ∧ 0 ≤ stH.frame
    ∧ handle cmd args st = Except.ok { stMid with frame := st.frame + 1 } := by
  refine ⟨rollback_preserves_frame steps st stR hroll, ?_, ?_, ?_⟩
  · rw [change_state_step st nu hlatch hne]
  · unfold handle at hhandle
    split at hhandle
    · cases hhandle
      exact le_max_left _ _
    · exact Except.noConfusion hhandle
  · have hmax : max 0 (stMid.frame + 1) = st.frame + 1 := by omega
    unfold handle
    rw [hdisp, ← hmax]

/-- A small running state used to instantiate the amended C8. -/
def c8w : LEDState :=
  { init_state with state := "red", past_states := ["a"], running := true }

/-- C8 witness: the amended claim at a concrete state — `rollback 1`
preserves `frame`, a `change_state` to `blue` resets it, and the pure
`Error` branch increments it from 0 to 1. -/
theorem pyTrunc_intCast (m : ℤ) : pyTrunc ((m : ℤ) : ℚ) = m := by
  unfold pyTrunc
  rw [Rat.num_intCast, Rat.den_intCast]
  exact Int.tdiv_one m

theorem pyTrunc_eq_floor (q : ℚ) (h : 0 ≤ q) : pyTrunc q = ⌊q⌋ := by
  unfold pyTrunc
  rw [Int.tdiv_eq_ediv (Rat.num_nonneg.mpr h) (Int.ofNat_nonneg q.den)]
  exact (Rat.floor_def).symm

theorem pymod_eval (a m : ℚ) (k : ℤ) (r : ℚ) (hm : 0 < m)
    (h1 : a = m * k + r) (h2 : 0 ≤ r) (h3 : r < m) : pymod a m = r := by
  have hq : a / m = (k : ℚ) + r / m := by
    field_simp
    rw [h1]
    ring
  have hfrac : ⌊r / m⌋ = 0 := by
    rw [Int.floor_eq_iff]
    refine ⟨by positivity, ?_⟩
    rw [show ((0 : ℤ) : ℚ) + 1 = 1 by norm_num, div_lt_one hm]
    exact h3
  have hfl : ⌊a / m⌋ = k := by
    rw [hq, Int.floor_int_add, hfrac, add_zero]
  unfold pymod
  rw [hfl, h1]
  ring

theorem pymod_add_right (a m : ℚ) (hm : m ≠ 0) : pymod (a + m) m = pymod a m := by
  unfold pymod
  have h1 : (a + m) / m = a / m + 1 := by
    field_simp
  rw [h1, Int.floor_add_one]
  push_cast
  ring

theorem C8_amended_witness :
    ({ c8w with state := "a", past_states := ([] : List String) } : LEDState).frame = c8w.frame
    ∧ ((change_state "blue" c8w).2).frame = 0
    ∧ 0 ≤ ({ c8w with frame := 1 } : LEDState).frame
    ∧ handle "Error" [] c8w = Except.ok { c8w with frame := c8w.frame + 1 } :=
  C8_amended c8w { c8w with state := "a", past_states := [] } { c8w with frame := 1 } c8w
    1 "blue" "Error" [] rfl rfl (by decide) rfl rfl rfl (by decide)

/-- C4 counterexample: at `frame = 3`, `state_length = 1`, `fps = 2` (so
`f_count = 2`), the code's dimming factor (`_breath_factor`, which reduces
`frame/state_length` modulo `f_count` and *then* doubles, by Python
operator precedence) is `1/2`, while the spec's formula (reduction modulo
`2*f_count`) gives `0`.  The claimed formula therefore does not describe
the code. -/
theorem C4_counterexample :
    _breath_factor 3 2 1 = 1/2
    ∧ spec_breath_factor 3 2 1 = 0
    ∧ _breath_factor 3 2 1 ≠ spec_breath_factor 3 2 1 := by
  have hp1 : pymod ((3 : ℚ)/1) 2 = 1 :=
    pymod_eval ((3 : ℚ)/1) 2 1 1 (by norm_num) (by norm_num) (by norm_num) (by norm_num)
  have hp2 : pymod ((3 : ℚ)/1) (2*2) = 3 :=
    pymod_eval ((3 : ℚ)/1) (2*2) 0 3 (by norm_num) (by norm_num) (by norm_num) (by norm_num)
  have h1 : _breath_factor 3 2 1 = 1/2 := by
    simp only [_breath_factor]
    rw [hp1, show (1 : ℚ) * 2 - ((2 : ℚ) - 1) = 1 by norm_num, abs_one]
    norm_num
  have h2 : spec_breath_factor 3 2 1 = 0 := by
    simp only [spec_breath_factor]
    rw [hp2, show (3 : ℚ) - ((2 : ℚ) - 1) = 2 by norm_num,
      abs_of_nonneg (by norm_num : (0 : ℚ) ≤ 2)]
    norm_num
  exact ⟨h1, h2, by rw [h1, h2]; norm_num⟩

/-- C4 (amended): with `f_count = state_length * fps`, the breathing
dimming factor equals `1 - |2*((frame/state_length) mod f_count) - f_count
+ 1| / f_count` — the reduction is modulo `f_count` *before* doubling, not
modulo `2*f_count` — making the curve periodic in `frame` with period
`state_length * f_count`; the color-list index still advances every
`2 * f_count` frames: throughout the `k`-th window of `2*f_count` frames it
is `k mod n`. -/
theorem C4_amended (frame state_length fps : ℚ) (fr : Int) (k n : Nat)
    (hsl : 0 < state_length) (hfps : 1 ≤ fps) (hn : 0 < n)
    (hfr0 : 2 * (state_length * fps) * k ≤ (fr : ℚ))
    (hfr1 : (fr : ℚ) < 2 * (state_length * fps) * (k + 1)) :
    _breath_factor frame (state_length * fps) state_length
      = 1 - |2 * pymod (frame / state_length) (state_length * fps)
              - (state_length * fps) + 1| / (state_length * fps)
    ∧ _breath_factor (frame + state_length * (state_length * fps))
        (state_length * fps) state_length
      = _breath_factor frame (state_length * fps) state_length
    ∧ breathing_color_index fr (state_length * fps) n = ((k % n : Nat) : Int) := by
  have hfps0 : (0 : ℚ) < fps := lt_of_lt_of_le one_pos hfps
  have hfc : (0 : ℚ) < state_length * fps := mul_pos hsl hfps0
  refine ⟨?_, ?_, ?_⟩
  · simp only [_breath_factor]
    rw [show pymod (frame / state_length) (state_length * fps) * 2
          - (state_length * fps - 1)
        = 2 * pymod (frame / state_length) (state_length * fps)
          - (state_length * fps) + 1 by ring]
  · have harg : (frame + state_length * (state_length * fps)) / state_length
        = frame / state_length + state_length * fps := by
      field_simp
      ring
    simp only [_breath_factor]
    rw [harg, pymod_add_right _ _ hfc.ne']
  · have hfr0' : (0 : ℚ) ≤ (fr : ℚ) := le_trans (by positivity) hfr0
    have hdiv : (fr : ℚ) / (state_length * fps) / 2
        = (fr : ℚ) / (2 * (state_length * fps)) := by
      rw [div_div, mul_comm (state_length * fps) 2]
    have hfloor : ⌊(fr : ℚ) / (2 * (state_length * fps))⌋ = (k : ℤ) := by
      rw [Int.floor_eq_iff]
      constructor
      · rw [le_div_iff (by positivity)]
        push_cast
        calc ((k : ℚ)) * (2 * (state_length * fps)) = 2 * (state_length * fps) * k := by ring
          _ ≤ (fr : ℚ) := hfr0
      · rw [div_lt_iff (by positivity)]
        push_cast
        calc ((fr : ℚ)) < 2 * (state_length * fps) * (k + 1) := hfr1
          _ = ((k : ℚ) + 1) * (2 * (state_length * fps)) := by ring
    have htr : pyTrunc ((fr : ℚ) / (state_length * fps) / 2) = (k : ℤ) := by
      rw [pyTrunc_eq_floor _ (by positivity), hdiv, hfloor]
    simp only [breathing_color_index]
    rw [htr]
    push_cast
    rfl

/-- C4 witness: the amended claim at `frame = 3`, `state_length = 1`,
`fps = 2`, with the color index checked at `fr = 5` in window `k = 1` of a
3-color list. -/
theorem C4_amended_witness :
    _breath_factor 3 (1 * 2) 1
      = 1 - |2 * pymod (3 / 1) (1 * 2) - (1 * 2) + 1| / (1 * 2)
    ∧ _breath_factor (3 + 1 * (1 * 2)) (1 * 2) 1 = _breath_factor 3 (1 * 2) 1
    ∧ breathing_color_index 5 (1 * 2) 3 = ((1 % 3 : Nat) : Int) :=
  C4_amended 3 1 2 5 1 3 (by norm_num) (by norm_num) (by norm_num)
    (by norm_num) (by norm_num)

/-- C5 counterexample: `set_brightness("300")` does not store the clamped
value 255 — it raises a `TypeError` before anything is parsed (the
one-argument call to the two-parameter `_parse8bit`); and `_parse8bit`'s
own arithmetic, given both arguments, truncates `300` to its low byte `44`,
not to `255`. -/
theorem C5_counterexample :
    set_brightness "300" init_state = Except.error parse8bitArityError
    ∧ (¬ ∃ v st1, set_brightness "300" init_state = Except.ok (v, st1))
    ∧ _parse8bit "" "300" = Except.ok 44
    ∧ (44 : Int) ≠ 255 := by
  refine ⟨rfl, ?_, rfl, by decide⟩
  rintro ⟨v, st1, h⟩
  exact Except.noConfusion h

/-- C5 (amended): every call to `set_brightness`, `set_inside_brightness`
or `set_edge_brightness` raises a `TypeError`, because the module-level
`_parse8bit(self, val)` takes two required parameters but is called with
one; no value is ever parsed or stored, so the prior setting stays intact
for every input.  `_parse8bit`'s own logic, given both arguments, truncates
`int(val)` to its low byte (300 becomes 44, -5 becomes 251) rather than
clamping, and rejects non-numeric input with a `ValueError`. -/
theorem C5_amended (bright s : String) (st : LEDState) :
    set_brightness bright st = Except.error parse8bitArityError
    ∧ set_inside_brightness bright st = Except.error parse8bitArityError
    ∧ set_edge_brightness bright st = Except.error parse8bitArityError
    ∧ _parse8bit s "300" = Except.ok 44
    ∧ _parse8bit s "-5" = Except.ok 251
    ∧ _parse8bit s "abc"
      = Except.error (PyErr.valueError "Could not parse abc as an 8 bit integer") :=
  ⟨rfl, rfl, rfl, rfl, rfl, rfl⟩

theorem dim_color_eval (c : Nat) (br : ℚ) (r g b : ℤ)
    (hr : (((c &&& 0xFF0000) >>> 16 : ℕ) : ℚ) * br = ((r : ℤ) : ℚ))
    (hg : (((c &&& 0x00FF00) >>> 8 : ℕ) : ℚ) * br = ((g : ℤ) : ℚ))
    (hb : ((c &&& 0x0000FF : ℕ) : ℚ) * br = ((b : ℤ) : ℚ)) :
    dim_color c br = Color r.toNat g.toNat b.toNat := by
  simp only [dim_color]
  rw [hr, hg, hb, pyTrunc_intCast, pyTrunc_intCast, pyTrunc_intCast]

/-- C6: evaluation of the code at the failing input.  At `frame = 4` (with
`fps = 1`, `duration_seconds = 5`) `shutdown_prepare` is in its `on` phase
before the peak, computes the *integer* `brightness = 41` and passes it to
`dim_color` on red; the result packs red channel `255 * 41 = 10455`, far
above 255, so the packed value `Color 10455 0 0` exceeds the 24-bit range;
and after `_set_color`'s edge-brightness pass (factor 1.0 at the default
255) the channel stored for the strip has wrapped to `215` — an
out-of-range channel produced by a `dim_color` caller reaches the buffer,
which the claim (and the spec) rule out. -/
theorem C6_overflow :
    shutdown_prepare_color 4 1 5 = dim_color RED 41
    ∧ dim_color RED 41 = Color 10455 0 0
    ∧ (0xFFFFFF : Nat) < Color 10455 0 0
    ∧ (255 : Nat) < 10455
    ∧ channel_red (dim_color (Color 10455 0 0) 1) = 215
    ∧ (215 : Nat) ≠ 255 := by
  have hred : dim_color RED (41 : ℚ) = Color 10455 0 0 := by
    have h := dim_color_eval RED 41 10455 0 0
      (by rw [show ((RED &&& 0xFF0000) >>> 16 : ℕ) = 255 from rfl]; norm_num)
      (by rw [show ((RED &&& 0x00FF00) >>> 8 : ℕ) = 0 from rfl]; norm_num)
      (by rw [show (RED &&& 0x0000FF : ℕ) = 0 from rfl]; norm_num)
    rw [h]
    rfl
  refine ⟨?_, hred, by decide, by decide, ?_, by decide⟩
  · simp only [shutdown_prepare_color]
    rw [if_pos (by decide : 3 < (4 : ℤ) % 10),
      if_pos (by norm_num : ((4 : ℤ) : ℚ) ≤ 5 * 1),
      show (205 : ℚ) * (1 - ((4 : ℤ) : ℚ) / (5 * 1)) = ((41 : ℤ) : ℚ) by push_cast; norm_num,
      pyTrunc_intCast,
      show max (41 : ℤ) 0 = 41 from rfl,
      show (((41 : ℤ) : ℤ) : ℚ) = (41 : ℚ) by push_cast; norm_num]
  · have h := dim_color_eval (Color 10455 0 0) 1 215 0 0
      (by rw [show ((Color 10455 0 0 &&& 0xFF0000) >>> 16 : ℕ) = 215 from rfl]; norm_num)
      (by rw [show ((Color 10455 0 0 &&& 0x00FF00) >>> 8 : ℕ) = 0 from rfl]; norm_num)
      (by rw [show (Color 10455 0 0 &&& 0x0000FF : ℕ) = 0 from rfl]; norm_num)
    rw [h]
    rfl

/-- C7: evaluation of the code at the failing input.  `on_state_change` has
no `set` branch: the raw string `set:fps:10` is handed to `change_state`
like any state, which answers `OK set:fps:10 ...`, makes `set:fps:10` the
current state and pushes the previous state onto the rollback history.  The
Settings sub-protocol the claim describes exists only in the uncalled
`set_setting`, which would indeed answer `OK setting fps -> 10` without
touching the state or history. -/
theorem C7_set_dispatch :
    on_state_change "set:fps:10" init_state
      = ("OK set:fps:10   # listening -> set:fps:10",
         { init_state with state := "set:fps:10", past_states := ["listening"] })
    ∧ ((on_state_change "set:fps:10" init_state).2).state ≠ init_state.state
    ∧ ((on_state_change "set:fps:10" init_state).2).past_states ≠ init_state.past_states
    ∧ set_setting "fps" ["10"] init_state
      = Except.ok ("OK setting fps -> 10", { init_state with fps := 10 }) :=
  ⟨rfl, by decide, by decide, rfl⟩

end MrBeamLedStrips
